import Mathlib

set_option linter.unusedVariables false

/-!
Shallow embedding of `examples/pipelines/rag/lightrag_pipeline.py`.

The adapter is a single Python class `Pipeline`.  We embed:
  * the process environment as a partial map `Env` (`os.getenv`),
  * the filesystem as a flat set of existing paths `FS`
    (`os.makedirs`, `os.path.exists`),
  * the external fetch service (`SimpleWebPageReader.aload_data`) and the
    retrieval engine (`LightRAG`) as parameters, with the observable fetch
    and insert calls recorded in an event trace,
  * fallible Python operations (`int(...)` raising `ValueError`, a method
    call on `None` raising `AttributeError`, an exception escaping
    `on_startup`) as `Option` / `Except` results.
-/

/-- The process environment: `os.getenv` returns `None` for unset names. -/
abbrev Env := String → Option String

/-- `os.getenv(name, default)`: the variable's value, or the default. -/
def getenv (env : Env) (name dflt : String) : String :=
  (env name).getD dflt

/-- `os.environ[name] = value`. -/
def setEnv (env : Env) (name value : String) : Env :=
  fun n => if n = name then some value else env n

/-- The filesystem, as the set of paths that exist. -/
abbrev FS := List String

/-- `os.makedirs(d, exist_ok=True)`: idempotent creation of the directory. -/
def makedirs (fs : FS) (d : String) : FS :=
  if d ∈ fs then fs else d :: fs

/-- `os.path.join(a, b)` for a relative second component. -/
def joinPath (a b : String) : String :=
  a ++ "/" ++ b

/-- `str.capitalize()`: first character uppercased, the rest lowercased. -/
def capitalize (s : String) : String :=
  match s.data with
  | [] => ""
  | c :: cs => String.mk (c.toUpper :: cs.map Char.toLower)

/-- `str.lower()`: each character lowercased. -/
def pyLower (s : String) : String :=
  String.mk (s.data.map Char.toLower)

/-- Value of a list of decimal digits, most significant first. -/
def digitsVal : List Char → Nat → Nat
  | [], acc => acc
  | c :: cs, acc => digitsVal cs (acc * 10 + (c.toNat - 48))

/-- Python `int(s)` on a plain decimal string (an optional minus sign and
decimal digits); `none` models the `ValueError` raised on a non-numeric
value. -/
def pyInt (s : String) : Option Int :=
  match s.data with
  | [] => none
  | '-' :: ds =>
      if ds.isEmpty || !(ds.all Char.isDigit) then none
      else some (-(digitsVal ds 0 : Int))
  | ds =>
      if ds.all Char.isDigit then some (digitsVal ds 0) else none

/-- The `Pipeline.Valves` pydantic model: the typed configuration record. -/
structure Valves where
  OPENAI_API_KEY : String
  WORKING_DIR : String
  SEARCH_MODE : String
  LLM_MODEL : String
  USE_MINI_MODEL : Bool
  TARGET_URL : String
  HTML_TO_TEXT : Bool
  CHUNK_SIZE : Int
  CHUNK_OVERLAP : Int
  DISTANCE_METRIC : String
  TOP_K : Int
deriving DecidableEq

/-- The two imported completion functions the adapter chooses between. -/
inductive LLMFunc where
  | gpt_4o_mini_complete
  | gpt_4o_complete
deriving DecidableEq

/-- The `LightRAG(...)` constructor's arguments: the engine handle is
fully determined by them (the engine itself is external). -/
structure LightRAG where
  working_dir : String
  llm_model_func : LLMFunc
  chunk_size : Int
  chunk_overlap : Int
  distance_metric : String
  top_k : Int
deriving DecidableEq

/-- `llm_func = gpt_4o_mini_complete if self.valves.USE_MINI_MODEL else
gpt_4o_complete` — computed identically in `on_startup` and
`on_valves_updated`. -/
def llm_func_of (v : Valves) : LLMFunc :=
  if v.USE_MINI_MODEL then LLMFunc.gpt_4o_mini_complete else LLMFunc.gpt_4o_complete

/-- The `LightRAG(working_dir=..., llm_model_func=..., chunk_size=...,
chunk_overlap=..., distance_metric=..., top_k=...)` construction, written
out twice verbatim in the source (`on_startup` and `on_valves_updated`). -/
def mkLightRAG (v : Valves) : LightRAG :=
  { working_dir := v.WORKING_DIR
    llm_model_func := llm_func_of v
    chunk_size := v.CHUNK_SIZE
    chunk_overlap := v.CHUNK_OVERLAP
    distance_metric := v.DISTANCE_METRIC
    top_k := v.TOP_K }

/-- The fixed list in `set_pipelines`. -/
def search_modes : List String :=
  ["naive", "local", "global", "hybrid"]

/-- `set_pipelines`: the `(id, name)` pairs assigned to `self.pipelines`. -/
def set_pipelines : List (String × String) :=
  search_modes.map (fun mode => (mode, "LightRAG (" ++ capitalize mode ++ " Search)"))

/-- The mutable attributes of a `Pipeline` instance. -/
structure PipelineState where
  ptype : String
  name : String
  valves : Valves
  rag : Option LightRAG
  pipelines : List (String × String)
deriving DecidableEq

/-- `Pipeline.__init__` field resolution: each `Valves` field read via
`os.getenv` with its literal default; the two boolean fields coerced by
`.lower() == "true"`; the three integer fields parsed with `int(...)`.
`none` models the `ValueError` escaping construction. -/
def loadValves (env : Env) : Option Valves := do
  let chunk_size ← pyInt (getenv env "CHUNK_SIZE" "1000")
  let chunk_overlap ← pyInt (getenv env "CHUNK_OVERLAP" "200")
  let top_k ← pyInt (getenv env "TOP_K" "5")
  some
    { OPENAI_API_KEY := getenv env "OPENAI_API_KEY" "your-openai-api-key-here"
      WORKING_DIR := getenv env "WORKING_DIR" ".ra"
      SEARCH_MODE := getenv env "SEARCH_MODE" "hybrid"
      LLM_MODEL := getenv env "LLM_MODEL" "gpt-4"
      USE_MINI_MODEL := pyLower (getenv env "USE_MINI_MODEL" "true") == "true"
      TARGET_URL := getenv env "TARGET_URL" "https://lightrag.github.io/"
      HTML_TO_TEXT := pyLower (getenv env "HTML_TO_TEXT" "true") == "true"
      CHUNK_SIZE := chunk_size
      CHUNK_OVERLAP := chunk_overlap
      DISTANCE_METRIC := getenv env "DISTANCE_METRIC" "cosine"
      TOP_K := top_k }

/-- `Pipeline.__init__`: builds the valves, sets `self.rag = None`, runs
`set_pipelines`, then writes the resolved credential back into the process
environment (`os.environ["OPENAI_API_KEY"] = self.valves.OPENAI_API_KEY`).
Returns the instance state and the updated environment, or `none` when a
valve fails to parse. -/
def pipelineInit (env : Env) : Option (PipelineState × Env) :=
  match loadValves env with
  | none => none
  | some valves =>
      some
        ({ ptype := "pipeline"
           name := "LightRAG Pipeline"
           valves := valves
           rag := none
           pipelines := set_pipelines },
         setEnv env "OPENAI_API_KEY" valves.OPENAI_API_KEY)

/-- A fetched web document (`SimpleWebPageReader` result item): only its
`text` attribute is used. -/
structure Doc where
  text : String
deriving DecidableEq

/-- The external fetch service:
`SimpleWebPageReader(html_to_text=flag).aload_data(urls)`.  It may raise
(network error), modelled by `Except.error`. -/
abbrev Fetcher := List String → Bool → Except String (List Doc)

/-- Observable calls `on_startup` / `on_valves_updated` make on the
external fetch and engine services. -/
inductive Event where
  | fetchCall (urls : List String) (htmlToText : Bool)
  | insertCall (handle : LightRAG) (text : String)
deriving DecidableEq

/-- Whether an event is a fetch call. -/
def isFetch : Event → Bool
  | Event.fetchCall _ _ => true
  | Event.insertCall _ _ => false

/-- Whether an event is an insert call. -/
def isInsert : Event → Bool
  | Event.fetchCall _ _ => false
  | Event.insertCall _ _ => true

/-- Number of fetch calls in a trace. -/
def fetchCalls (tr : List Event) : Nat :=
  (tr.filter isFetch).length

/-- Number of insert calls in a trace. -/
def insertCalls (tr : List Event) : Nat :=
  (tr.filter isInsert).length

/-- The texts passed to insert calls, in call order. -/
def insertTexts (tr : List Event) : List String :=
  tr.filterMap (fun e =>
    match e with
    | Event.insertCall _ s => some s
    | Event.fetchCall _ _ => none)

/-- `Pipeline.on_startup`: ensures the working directory exists, builds
the engine handle, then either reuses the persisted index (the marker file
`index.faiss` exists inside the working directory) or fetches the target
URL and inserts every fetched document's text in order.  The source wraps
the marker check in `try`/`except FileNotFoundError`, raising
`FileNotFoundError` itself when the marker is absent and handling it with
the fetch-and-insert branch; an exception from the fetch call itself is
not `FileNotFoundError` and escapes, modelled by `Except.error`. -/
def on_startup (st : PipelineState) (fs : FS) (fetch : Fetcher) :
    Except String (PipelineState × FS × List Event) :=
  let fs2 := makedirs fs st.valves.WORKING_DIR
  let rag := mkLightRAG st.valves
  let st2 := { st with rag := some rag }
  if joinPath st.valves.WORKING_DIR "index.faiss" ∈ fs2 then
    Except.ok (st2, fs2, [])
  else
    match fetch [st.valves.TARGET_URL] st.valves.HTML_TO_TEXT with
    | Except.error e => Except.error e
    | Except.ok documents =>
        Except.ok (st2, fs2,
          Event.fetchCall [st.valves.TARGET_URL] st.valves.HTML_TO_TEXT ::
            documents.map (fun d => Event.insertCall rag d.text))

/-- `Pipeline.on_valves_updated`: re-runs `set_pipelines` and rebuilds the
engine handle from the current valves.  The body performs no filesystem,
fetch or insert operation, so the filesystem passes through unchanged and
the event trace is empty. -/
def on_valves_updated (st : PipelineState) (fs : FS) :
    PipelineState × FS × List Event :=
  ({ st with pipelines := set_pipelines, rag := some (mkLightRAG st.valves) }, fs, [])

/-- `QueryParam(mode=..., top_k=..., distance_metric=...)`. -/
structure QueryParam where
  mode : String
  top_k : Int
  distance_metric : String
deriving DecidableEq

/-- A request body (`body: dict`), as key/value pairs. -/
abbrev Body := List (String × String)

/-- The engine's synchronous `rag.query(user_message, param=...)` call,
kept abstract: the engine is an external service. -/
abbrev QueryFn := LightRAG → String → QueryParam → String

/-- `Pipeline.pipe`: resolves the search mode as
`model_id or self.valves.SEARCH_MODE` (a Python `or` on strings: the empty
string is falsy), builds a fresh `QueryParam`, invokes the engine once,
and returns a generator that yields the single response and terminates —
modelled as the list of yielded elements.  `none` models the
`AttributeError` raised when `self.rag` is still `None`. -/
def pipe (st : PipelineState) (query : QueryFn)
    (user_message model_id : String) (messages : List Body) (body : Body) :
    Option (List String) :=
  match st.rag with
  | none => none
  | some rag =>
      let search_mode := if model_id = "" then st.valves.SEARCH_MODE else model_id
      let query_param : QueryParam :=
        { mode := search_mode
          top_k := st.valves.TOP_K
          distance_metric := st.valves.DISTANCE_METRIC }
      let response := query rag user_message query_param
      some [response]

/-- A mode value embedded in a request body, at key "mode". -/
def bodyMode (b : Body) : Option String :=
  (b.find? (fun kv => kv.1 == "mode")).map (fun kv => kv.2)

/-- Modelled from the spec: "Resolves retrieval mode by priority: explicit
`modeHint` if non-empty, else a mode value embedded in `requestBody`, else
the configuration's default mode."  Written from the spec's words, for
comparison with the resolution the code performs in `pipe`. -/
def specResolveMode (modeHint : String) (requestBody : Body) (defaultMode : String) : String :=
  if modeHint ≠ "" then modeHint
  else
    match bodyMode requestBody with
    | some m => m
    | none => defaultMode

/-- The environment with no variables set: every valve takes its default. -/
def emptyEnv : Env := fun _ => none

/-- The valves produced from `emptyEnv`: all documented defaults. -/
def defaultValves : Valves :=
  { OPENAI_API_KEY := "your-openai-api-key-here"
    WORKING_DIR := ".ra"
    SEARCH_MODE := "hybrid"
    LLM_MODEL := "gpt-4"
    USE_MINI_MODEL := true
    TARGET_URL := "https://lightrag.github.io/"
    HTML_TO_TEXT := true
    CHUNK_SIZE := 1000
    CHUNK_OVERLAP := 200
    DISTANCE_METRIC := "cosine"
    TOP_K := 5 }

/-- The instance state right after `Pipeline.__init__` under `emptyEnv`. -/
def defaultState : PipelineState :=
  { ptype := "pipeline"
    name := "LightRAG Pipeline"
    valves := defaultValves
    rag := none
    pipelines := set_pipelines }

/-- `defaultState` after a startup that bound an engine handle. -/
def readyState : PipelineState :=
  { defaultState with rag := some (mkLightRAG defaultValves) }

/-- An environment whose CHUNK_SIZE value is non-numeric. -/
def badEnv : Env := fun n => if n = "CHUNK_SIZE" then some "abc" else none

/-! Helper lemmas about the filesystem model and event traces. -/

/-- Joining a non-empty component onto a directory changes the path. -/
theorem joinPath_ne_dir (a b : String) : joinPath a b ≠ a := by
  intro h
  have hl : (joinPath a b).length = a.length := congrArg String.length h
  have h1 : ("/" : String).length = 1 := rfl
  rw [joinPath, String.length_append, String.length_append, h1] at hl
  omega

/-- `makedirs` only adds paths. -/
theorem mem_makedirs (fs : FS) (d p : String) (h : p ∈ fs) : p ∈ makedirs fs d := by
  unfold makedirs
  split
  · exact h
  · exact List.mem_cons_of_mem _ h

/-- A marker path inside the directory is not created by `makedirs` of the
directory itself. -/
theorem marker_not_in_makedirs (fs : FS) (d s : String)
    (h : joinPath d s ∉ fs) : joinPath d s ∉ makedirs fs d := by
  unfold makedirs
  split
  · exact h
  · intro hm
    rcases List.mem_cons.mp hm with he | hm2
    · exact joinPath_ne_dir d s he
    · exact h hm2

/-- A trace of insert calls contains no fetch call. -/
theorem fetchCalls_map_insert (rag : LightRAG) (docs : List Doc) :
    fetchCalls (docs.map (fun d => Event.insertCall rag d.text)) = 0 := by
  induction docs with
  | nil => rfl
  | cons d ds ih => simp [fetchCalls, isFetch, List.filter_cons]

/-- A trace of one insert call per document has one insert per document. -/
theorem insertCalls_map_insert (rag : LightRAG) (docs : List Doc) :
    insertCalls (docs.map (fun d => Event.insertCall rag d.text)) = docs.length := by
  induction docs with
  | nil => rfl
  | cons d ds ih => simpa [insertCalls, isInsert, List.filter_cons] using ih

/-- The insert payloads of such a trace are the document texts in order. -/
theorem insertTexts_map_insert (rag : LightRAG) (docs : List Doc) :
    insertTexts (docs.map (fun d => Event.insertCall rag d.text)) = docs.map Doc.text := by
  induction docs with
  | nil => rfl
  | cons d ds ih => simpa [insertTexts, List.filterMap_cons] using ih

/-! Claim theorems. -/

/-- C1: for every user message, engine handle and configuration, `pipe`
returns the sequence whose yielded elements are exactly one element, equal
to the engine's synchronous `query` result on that message with the built
query parameters; the sequence is exhausted after that element. -/
theorem pipe_yields_single_query_result (st : PipelineState) (rag : LightRAG)
    (h : st.rag = some rag) (query : QueryFn)
    (user_message model_id : String) (messages : List Body) (body : Body) :
    pipe st query user_message model_id messages body =
      some [query rag user_message
        { mode := if model_id = "" then st.valves.SEARCH_MODE else model_id
          top_k := st.valves.TOP_K
          distance_metric := st.valves.DISTANCE_METRIC }] := by
  simp [pipe, h]

/-- Witness for C1 at a concrete ready state, query oracle and inputs. -/
theorem pipe_yields_single_query_result_witness :
    pipe readyState (fun _ m p => m ++ p.mode) "q" "naive" [] [] = some ["qnaive"] := by
  rw [pipe_yields_single_query_result readyState (mkLightRAG defaultValves) rfl
    (fun _ m p => m ++ p.mode) "q" "naive" [] []]
  rfl

/-- C2 counterexample: with an empty mode hint and a request body carrying
mode "global", the mode the engine is invoked with is the configured
default "hybrid", not the body's "global": `pipe` never consults the body,
contradicting the claimed hint-body-default priority (here `specResolveMode`,
written from the spec's words, resolves "global"). -/
theorem pipe_ignores_body_mode_counterexample :
    bodyMode [("mode", "global")] = some "global" ∧
    readyState.valves.SEARCH_MODE = "hybrid" ∧
    specResolveMode "" [("mode", "global")] "hybrid" = "global" ∧
    pipe readyState (fun _ _ p => p.mode) "q" "" [] [("mode", "global")] =
      some ["hybrid"] ∧
    ("hybrid" : String) ≠ "global" := by
  refine ⟨rfl, rfl, rfl, rfl, by decide⟩

/-- C2 amended: the resolved mode is the mode hint (`model_id`) when it is
non-empty and the configuration's default mode otherwise; the request body
is never consulted (the result is the same for any two bodies). -/
theorem pipe_mode_hint_else_default (st : PipelineState) (rag : LightRAG)
    (h : st.rag = some rag) (query : QueryFn)
    (user_message model_id : String) (messages : List Body) (body body2 : Body) :
    pipe st query user_message model_id messages body =
      pipe st query user_message model_id messages body2 ∧
    (model_id = "" →
      pipe st query user_message model_id messages body =
        some [query rag user_message
          { mode := st.valves.SEARCH_MODE
            top_k := st.valves.TOP_K
            distance_metric := st.valves.DISTANCE_METRIC }]) ∧
    (model_id ≠ "" →
      pipe st query user_message model_id messages body =
        some [query rag user_message
          { mode := model_id
            top_k := st.valves.TOP_K
            distance_metric := st.valves.DISTANCE_METRIC }]) := by
  refine ⟨rfl, ?_, ?_⟩ <;> intro hm <;> simp [pipe, h, hm]

/-- Witness for the amended C2 at a concrete state and inputs. -/
theorem pipe_mode_hint_else_default_witness :
    (pipe readyState (fun _ _ p => p.mode) "q" "" [] [("mode", "global")] =
      pipe readyState (fun _ _ p => p.mode) "q" "" [] []) ∧
    (("" : String) = "" →
      pipe readyState (fun _ _ p => p.mode) "q" "" [] [("mode", "global")] =
        some [(fun (_ : LightRAG) (_ : String) (p : QueryParam) => p.mode)
          (mkLightRAG defaultValves) "q"
          { mode := readyState.valves.SEARCH_MODE
            top_k := readyState.valves.TOP_K
            distance_metric := readyState.valves.DISTANCE_METRIC }]) ∧
    (("" : String) ≠ "" →
      pipe readyState (fun _ _ p => p.mode) "q" "" [] [("mode", "global")] =
        some [(fun (_ : LightRAG) (_ : String) (p : QueryParam) => p.mode)
          (mkLightRAG defaultValves) "q"
          { mode := ""
            top_k := readyState.valves.TOP_K
            distance_metric := readyState.valves.DISTANCE_METRIC }]) :=
  pipe_mode_hint_else_default readyState (mkLightRAG defaultValves) rfl
    (fun _ _ p => p.mode) "q" "" [] [("mode", "global")] []

/-- C9: after `Pipeline.__init__` (and before any startup), the engine
slot holds `None`, and `pipe` fails with the `AttributeError` of calling
`query` on `None` (modelled as `none`): no fallback answer is produced. -/
theorem pipe_uninitialized_attribute_error (env : Env) (st : PipelineState)
    (env2 : Env) (h : pipelineInit env = some (st, env2)) (query : QueryFn)
    (user_message model_id : String) (messages : List Body) (body : Body) :
    st.rag = none ∧ pipe st query user_message model_id messages body = none := by
  cases hl : loadValves env with
  | none => simp [pipelineInit, hl] at h
  | some v =>
      simp [pipelineInit, hl] at h
      obtain ⟨hst, henv⟩ := h
      subst hst
      exact ⟨rfl, rfl⟩

/-- Witness for C9 at the default environment and concrete inputs. -/
theorem pipe_uninitialized_attribute_error_witness :
    defaultState.rag = none ∧
    pipe defaultState (fun _ _ p => p.mode) "q" "" [] [] = none :=
  pipe_uninitialized_attribute_error emptyEnv defaultState
    (setEnv emptyEnv "OPENAI_API_KEY" "your-openai-api-key-here") rfl
    (fun _ _ p => p.mode) "q" "" [] []

/-- C10: `on_valves_updated` called from the uninitialized state (engine
slot `None`) does not fail: it is total, leaves the adapter ready with a
live handle bound to the current valves, and makes no fetch or insert
call. -/
theorem valves_updated_uninitialized_ok (st : PipelineState) (fs : FS)
    (h : st.rag = none) :
    (on_valves_updated st fs).1.rag = some (mkLightRAG st.valves) ∧
    fetchCalls (on_valves_updated st fs).2.2 = 0 ∧
    insertCalls (on_valves_updated st fs).2.2 = 0 ∧
    (on_valves_updated st fs).2.1 = fs :=
  ⟨rfl, rfl, rfl, rfl⟩

/-- Witness for C10 at the freshly constructed default state. -/
theorem valves_updated_uninitialized_ok_witness :
    (on_valves_updated defaultState []).1.rag = some (mkLightRAG defaultState.valves) ∧
    fetchCalls (on_valves_updated defaultState []).2.2 = 0 ∧
    insertCalls (on_valves_updated defaultState []).2.2 = 0 ∧
    (on_valves_updated defaultState []).2.1 = [] :=
  valves_updated_uninitialized_ok defaultState [] rfl

/-- C5: for every configuration and prior state, `on_valves_updated`
performs zero fetch calls and zero insert calls; it replaces the engine
slot with a fresh handle built from the current valves and leaves the
filesystem (working directory and persisted index) untouched. -/
theorem valves_updated_no_fetch_no_insert (st : PipelineState) (fs : FS) :
    fetchCalls (on_valves_updated st fs).2.2 = 0 ∧
    insertCalls (on_valves_updated st fs).2.2 = 0 ∧
    (on_valves_updated st fs).1.rag = some (mkLightRAG st.valves) ∧
    (on_valves_updated st fs).2.1 = fs :=
  ⟨rfl, rfl, rfl, rfl⟩

/-- C3: when the working directory already contains the marker artifact
`index.faiss`, `on_startup` completes with zero fetch calls and zero
insert calls, only constructing the engine handle bound to the existing
directory and configuration. -/
theorem startup_cache_hit_no_fetch_no_insert (st : PipelineState) (fs : FS)
    (fetch : Fetcher)
    (h : joinPath st.valves.WORKING_DIR "index.faiss" ∈ fs) :
    ∃ st2 fs2 tr,
      on_startup st fs fetch = Except.ok (st2, fs2, tr) ∧
      fetchCalls tr = 0 ∧
      insertCalls tr = 0 ∧
      st2.rag = some (mkLightRAG st.valves) ∧
      (mkLightRAG st.valves).working_dir = st.valves.WORKING_DIR := by
  have h2 : joinPath st.valves.WORKING_DIR "index.faiss" ∈
      makedirs fs st.valves.WORKING_DIR :=
    mem_makedirs fs st.valves.WORKING_DIR _ h
  refine ⟨{ st with rag := some (mkLightRAG st.valves) },
    makedirs fs st.valves.WORKING_DIR, [], ?_, rfl, rfl, rfl, rfl⟩
  simp [on_startup, h2]

/-- Witness for C3: a directory with the marker, a fetcher that would
fail if consulted. -/
theorem startup_cache_hit_no_fetch_no_insert_witness :
    ∃ st2 fs2 tr,
      on_startup defaultState [".ra/index.faiss"] (fun _ _ => Except.error "net") =
        Except.ok (st2, fs2, tr) ∧
      fetchCalls tr = 0 ∧
      insertCalls tr = 0 ∧
      st2.rag = some (mkLightRAG defaultState.valves) ∧
      (mkLightRAG defaultState.valves).working_dir = defaultState.valves.WORKING_DIR :=
  startup_cache_hit_no_fetch_no_insert defaultState [".ra/index.faiss"]
    (fun _ _ => Except.error "net") (by decide)

/-- C4: when the working directory does not exist (and hence holds no
marker artifact), `on_startup` creates it, issues exactly one fetch call
to the configured source URL, and performs exactly one insert call per
fetched document, in the order the fetch service returned them. -/
theorem startup_cache_miss_fetch_and_insert_in_order (st : PipelineState)
    (fs : FS) (fetch : Fetcher) (docs : List Doc)
    (hdir : st.valves.WORKING_DIR ∉ fs)
    (hmarker : joinPath st.valves.WORKING_DIR "index.faiss" ∉ fs)
    (hfetch : fetch [st.valves.TARGET_URL] st.valves.HTML_TO_TEXT = Except.ok docs) :
    ∃ tr,
      on_startup st fs fetch =
        Except.ok ({ st with rag := some (mkLightRAG st.valves) },
          st.valves.WORKING_DIR :: fs, tr) ∧
      tr = Event.fetchCall [st.valves.TARGET_URL] st.valves.HTML_TO_TEXT ::
        docs.map (fun d => Event.insertCall (mkLightRAG st.valves) d.text) ∧
      fetchCalls tr = 1 ∧
      insertCalls tr = docs.length ∧
      insertTexts tr = docs.map Doc.text := by
  have hmk : makedirs fs st.valves.WORKING_DIR = st.valves.WORKING_DIR :: fs := by
    unfold makedirs
    rw [if_neg hdir]
  have hne : joinPath st.valves.WORKING_DIR "index.faiss" ∉
      makedirs fs st.valves.WORKING_DIR :=
    marker_not_in_makedirs fs st.valves.WORKING_DIR "index.faiss" hmarker
  refine ⟨_, ?_, rfl, ?_, ?_, ?_⟩
  · rw [← hmk]
    simp [on_startup, hne, hfetch]
  · simp [fetchCalls, List.filter_cons, isFetch]
  · simpa [insertCalls, List.filter_cons, isInsert] using
      insertCalls_map_insert (mkLightRAG st.valves) docs
  · simpa [insertTexts, List.filterMap_cons] using
      insertTexts_map_insert (mkLightRAG st.valves) docs

/-- Witness for C4: an empty filesystem and a fetcher returning two
documents. -/
theorem startup_cache_miss_fetch_and_insert_in_order_witness :
    ∃ tr,
      on_startup defaultState []
          (fun _ _ => Except.ok [Doc.mk "alpha", Doc.mk "beta"]) =
        Except.ok ({ defaultState with rag := some (mkLightRAG defaultState.valves) },
          defaultState.valves.WORKING_DIR :: [], tr) ∧
      tr = Event.fetchCall [defaultState.valves.TARGET_URL]
          defaultState.valves.HTML_TO_TEXT ::
        [Doc.mk "alpha", Doc.mk "beta"].map
          (fun d => Event.insertCall (mkLightRAG defaultState.valves) d.text) ∧
      fetchCalls tr = 1 ∧
      insertCalls tr = [Doc.mk "alpha", Doc.mk "beta"].length ∧
      insertTexts tr = [Doc.mk "alpha", Doc.mk "beta"].map Doc.text :=
  startup_cache_miss_fetch_and_insert_in_order defaultState []
    (fun _ _ => Except.ok [Doc.mk "alpha", Doc.mk "beta"])
    [Doc.mk "alpha", Doc.mk "beta"] (by decide) (by decide) rfl

/-- C6 counterexample: a cache-miss startup whose fetch service returns an
empty result does not surface a failure: `on_startup` completes normally
with no insert call, silently leaving the index empty. -/
theorem startup_empty_fetch_silently_completes :
    on_startup defaultState [] (fun _ _ => Except.ok []) =
      Except.ok (readyState, [".ra"],
        [Event.fetchCall ["https://lightrag.github.io/"] true]) := by
  rfl

/-- C6 amended: a cache-miss startup whose fetch call raises propagates
the error to the caller; but a fetch returning an empty result is not
detected — startup completes with one fetch call and zero insert calls. -/
theorem startup_fetch_error_surfaced (st : PipelineState) (fs : FS)
    (fetchE fetch0 : Fetcher) (e : String)
    (hmarker : joinPath st.valves.WORKING_DIR "index.faiss" ∉ fs)
    (herr : fetchE [st.valves.TARGET_URL] st.valves.HTML_TO_TEXT = Except.error e)
    (hempty : fetch0 [st.valves.TARGET_URL] st.valves.HTML_TO_TEXT = Except.ok []) :
    on_startup st fs fetchE = Except.error e ∧
    on_startup st fs fetch0 =
      Except.ok ({ st with rag := some (mkLightRAG st.valves) },
        makedirs fs st.valves.WORKING_DIR,
        [Event.fetchCall [st.valves.TARGET_URL] st.valves.HTML_TO_TEXT]) := by
  have hne : joinPath st.valves.WORKING_DIR "index.faiss" ∉
      makedirs fs st.valves.WORKING_DIR :=
    marker_not_in_makedirs fs st.valves.WORKING_DIR "index.faiss" hmarker
  constructor
  · simp [on_startup, hne, herr]
  · simp [on_startup, hne, hempty]

/-- Witness for the amended C6 at concrete fetchers. -/
theorem startup_fetch_error_surfaced_witness :
    on_startup defaultState [] (fun _ _ => Except.error "net") =
      Except.error "net" ∧
    on_startup defaultState [] (fun _ _ => Except.ok []) =
      Except.ok ({ defaultState with rag := some (mkLightRAG defaultState.valves) },
        makedirs [] defaultState.valves.WORKING_DIR,
        [Event.fetchCall [defaultState.valves.TARGET_URL]
          defaultState.valves.HTML_TO_TEXT]) :=
  startup_fetch_error_surfaced defaultState [] (fun _ _ => Except.error "net")
    (fun _ _ => Except.ok []) "net" (by decide) rfl rfl

/-- C7: valve construction coerces each boolean field by lowercasing the
environment value and comparing with "true", parses each integer field
with decimal parsing, and when a numeric field's value is non-numeric the
parse error propagates: construction yields no instance at all. -/
theorem valves_coercion_and_parse_error (env : Env) (v : Valves)
    (h : loadValves env = some v) (env2 : Env)
    (h2 : pyInt (getenv env2 "CHUNK_SIZE" "1000") = none) :
    v.USE_MINI_MODEL = (pyLower (getenv env "USE_MINI_MODEL" "true") == "true") ∧
    v.HTML_TO_TEXT = (pyLower (getenv env "HTML_TO_TEXT" "true") == "true") ∧
    pyInt (getenv env "CHUNK_SIZE" "1000") = some v.CHUNK_SIZE ∧
    pyInt (getenv env "CHUNK_OVERLAP" "200") = some v.CHUNK_OVERLAP ∧
    pyInt (getenv env "TOP_K" "5") = some v.TOP_K ∧
    loadValves env2 = none ∧
    pipelineInit env2 = none := by
  have hfail : loadValves env2 = none := by
    simp [loadValves, h2]
  cases hcs : pyInt (getenv env "CHUNK_SIZE" "1000") with
  | none => simp [loadValves, hcs] at h
  | some a =>
    cases hco : pyInt (getenv env "CHUNK_OVERLAP" "200") with
    | none => simp [loadValves, hcs, hco] at h
    | some b =>
      cases htk : pyInt (getenv env "TOP_K" "5") with
      | none => simp [loadValves, hcs, hco, htk] at h
      | some c =>
        simp [loadValves, hcs, hco, htk] at h
        subst h
        exact ⟨rfl, rfl, rfl, rfl, rfl, hfail, by simp [pipelineInit, hfail]⟩

/-- Witness for C7: the all-defaults environment and an environment whose
CHUNK_SIZE is "abc". -/
theorem valves_coercion_and_parse_error_witness :
    defaultValves.USE_MINI_MODEL =
      (pyLower (getenv emptyEnv "USE_MINI_MODEL" "true") == "true") ∧
    defaultValves.HTML_TO_TEXT =
      (pyLower (getenv emptyEnv "HTML_TO_TEXT" "true") == "true") ∧
    pyInt (getenv emptyEnv "CHUNK_SIZE" "1000") = some defaultValves.CHUNK_SIZE ∧
    pyInt (getenv emptyEnv "CHUNK_OVERLAP" "200") = some defaultValves.CHUNK_OVERLAP ∧
    pyInt (getenv emptyEnv "TOP_K" "5") = some defaultValves.TOP_K ∧
    loadValves badEnv = none ∧
    pipelineInit badEnv = none :=
  valves_coercion_and_parse_error emptyEnv defaultValves rfl badEnv (by decide)

/-- C8: after `Pipeline.__init__` completes, the process environment's
OPENAI_API_KEY equals the credential resolved into the valves. -/
theorem credential_written_back_to_env (env : Env) (st : PipelineState)
    (env2 : Env) (h : pipelineInit env = some (st, env2)) :
    env2 "OPENAI_API_KEY" = some st.valves.OPENAI_API_KEY := by
  cases hl : loadValves env with
  | none => simp [pipelineInit, hl] at h
  | some v =>
      simp [pipelineInit, hl] at h
      obtain ⟨hst, henv⟩ := h
      subst hst
      subst henv
      simp [setEnv]

/-- Witness for C8 at the all-defaults environment. -/
theorem credential_written_back_to_env_witness :
    (setEnv emptyEnv "OPENAI_API_KEY" "your-openai-api-key-here") "OPENAI_API_KEY" =
      some defaultState.valves.OPENAI_API_KEY :=
  credential_written_back_to_env emptyEnv defaultState
    (setEnv emptyEnv "OPENAI_API_KEY" "your-openai-api-key-here") rfl
